import Mathlib

/-!
Verification of the reply-generation pipeline of the spur-assignment
customer-support chat backend.

The code under scrutiny is `GeminiProvider` in
`src/backend/src/services/llm/gemini.ts`.  Its only operation,
`generateReply(history, userMessage)`, assembles a prompt from the
conversation history and the new user message, calls the LLM backend with a
per-attempt timeout, retries with exponential backoff on retryable failures,
and on every failure path returns a fixed fallback string.

Shallow embedding choices:
* JavaScript strings are modelled as Lean `String`s; `s.length`, `s.slice`
  and `s.trim()` are modelled consistently as operations on the underlying
  character list (`String.data`), so all length/slicing claims are about the
  same unit of measure, exactly as in the source where everything is
  `String.prototype` length units.
* The LLM backend (`this.model.generateContent` raced against the 30 s
  timeout promise) is an oracle `Nat → String → AttemptOutcome` giving, for
  each 0-indexed attempt and the prompt string sent on that attempt, either
  the successful text or the thrown error's `.message`.  A per-attempt
  timeout materialises as `AttemptOutcome.failure "LLM request timeout"`,
  the message constructed at gemini.ts line 49.
* The observable behaviour of one `generateReply` call is a `GenTrace`:
  the returned string, the number of backend calls made, and the list of
  backoff sleep durations (ms), in order.  Totality of the Lean function
  models "never raises to the caller".
* `history.length / 4` at gemini.ts line 117 is IEEE double division; for
  lengths below 2^53 dividing by 4 is exact, so it is embedded as exact
  rational division.
-/

/-- One conversation turn, `{ sender: string; text: string }`
(gemini.ts line 33; the spec restricts `sender` to `"user" | "ai"`,
the code accepts any string). -/
structure Turn where
  sender : String
  text : String
deriving DecidableEq

/-- Outcome of one backend attempt: either the text extracted from the
response (`result.response.text()`), or the message of the error thrown
(network error, HTTP error, or the raced timeout). -/
inductive AttemptOutcome where
  | success (text : String)
  | failure (message : String)
deriving DecidableEq

/-- Observable trace of one `generateReply` call: the string returned to
the caller, how many backend calls were made, and the backoff delays
(in ms) slept between attempts, in order. -/
structure GenTrace where
  result : String
  calls : Nat
  sleeps : List Nat
deriving DecidableEq

/-- gemini.ts line 4: the fixed system instruction block. -/
def SYSTEM_PROMPT : String :=
  "You are a helpful support agent for a small e-commerce store. Answer clearly and concisely.\n\nFAQ Domain Knowledge:\n- Shipping: We ship worldwide with delivery in 5–7 business days\n- Returns: 30-day return & refund policy\n- Support Hours: 9am–6pm IST, Monday–Saturday\n- Free Shipping: Free shipping to USA on orders over $50\n\nKeep responses helpful, professional, and concise."

/-- gemini.ts line 15. -/
def MAX_INPUT_TOKENS : Nat := 4000

/-- gemini.ts line 16. -/
def MAX_RETRIES : Nat := 3

/-- gemini.ts line 17 (ms). -/
def RETRY_DELAY_MS : Nat := 1000

/-- gemini.ts line 128: `getFallbackMessage()`. -/
def getFallbackMessage : String :=
  "Sorry — our support agent is having trouble right now. Please try again shortly."

/-- JavaScript `s.slice(0, n)`: the first `n` characters of `s`
(gemini.ts line 70 uses `slice(0, 2000)`). -/
def capAt (n : Nat) (s : String) : String :=
  String.mk (s.data.take n)

/-- JavaScript `s.trim()`: remove leading and trailing whitespace
(gemini.ts lines 65 and 70).  Modelled structurally on the character list
so it evaluates by kernel reduction. -/
def jsTrim (s : String) : String :=
  String.mk (((s.data.dropWhile Char.isWhitespace).reverse.dropWhile
    Char.isWhitespace).reverse)

/-- JavaScript `s.slice(-n)` for `n > 0`: the characters of `s` from
position `max(length - n, 0)` to the end (gemini.ts line 125).  For
`n ≥ length` this is all of `s`, as in JavaScript. -/
def sliceFromEnd (n : Nat) (s : String) : String :=
  String.mk (s.data.drop (s.data.length - n))

/-- Bool test: `pat` occurs at the very start of `s` (character lists). -/
def leadsWith (pat s : List Char) : Bool :=
  match pat, s with
  | [], _ => true
  | _ :: _, [] => false
  | a :: pr, b :: sr => a == b && leadsWith pr sr

/-- Bool test: `pat` occurs contiguously somewhere in `s` (character lists). -/
def hasSub (pat s : List Char) : Bool :=
  match s with
  | [] => pat.isEmpty
  | _ :: rest => leadsWith pat s || hasSub pat rest

/-- JavaScript `s.includes(pat)`: substring containment
(gemini.ts lines 77–81). -/
def containsSubstr (s pat : String) : Bool :=
  hasSub pat.data s.data

/-- gemini.ts lines 76–82: an error is non-retryable exactly when its
message includes one of the five marker substrings. -/
def isNonRetryable (errorMessage : String) : Bool :=
  containsSubstr errorMessage "API_KEY" ||
  containsSubstr errorMessage "401" ||
  containsSubstr errorMessage "403" ||
  containsSubstr errorMessage "400" ||
  containsSubstr errorMessage "invalid"

/-- The map callback of gemini.ts lines 108–111: one line
`"<Role>: <text>"`; `sender === 'user'` maps to `User`, anything else to
`Assistant`. -/
def turnLine (msg : Turn) : String :=
  (if msg.sender == "user" then "User" else "Assistant") ++ ": " ++ msg.text

/-- JavaScript `Array.prototype.join(sep)` (gemini.ts line 112). -/
def arrayJoin (sep : String) : List String → String
  | [] => ""
  | a :: rest => rest.foldl (fun acc x => acc ++ sep ++ x) a

/-- gemini.ts lines 106–113: `formatHistory`.  Turn lines joined with
`'\n'`, oldest first. -/
def formatHistory (history : List Turn) : String :=
  arrayJoin "\n" (history.map turnLine)

/-- gemini.ts lines 115–126: `truncateHistory`.  Estimate tokens as
`length / 4` (exact double division, embedded as rational division); if the
estimate exceeds `MAX_INPUT_TOKENS`, keep only the trailing
`MAX_INPUT_TOKENS * 4` characters. -/
def truncateHistory (history : String) : String :=
  let estimatedTokens : ℚ := (history.length : ℚ) / 4
  if estimatedTokens ≤ (MAX_INPUT_TOKENS : ℚ) then
    history
  else
    let maxLength := MAX_INPUT_TOKENS * 4
    sliceFromEnd maxLength history

/-- gemini.ts lines 40–45: the prompt string assembled inside the retry
loop body and sent to the backend on each attempt. -/
def buildPrompt (history : List Turn) (userMessage : String) : String :=
  SYSTEM_PROMPT ++ "\n\nConversation History:\n" ++
    truncateHistory (formatHistory history) ++
    "\n\nUser: " ++ userMessage ++ "\n\nAssistant:"

/-- gemini.ts lines 37–96: the retry loop of `generateReply`, from loop
counter `attempt` with `fuel` loop iterations remaining (the source loop
runs while `attempt < MAX_RETRIES`, so it is entered with
`attempt = 0, fuel = MAX_RETRIES` and `fuel` decreases as `attempt`
increases).  The prompt is reassembled (lines 40–45) at the start of every
iteration.  A successful attempt with empty or whitespace-only text returns
the fallback at once (lines 65–67); a non-empty success returns the trimmed
text capped to 2000 characters (line 70); a failure whose message matches a
non-retryable marker returns the fallback at once (lines 76–85); any other
failure sleeps `RETRY_DELAY_MS * 2 ^ attempt` ms when further attempts
remain (lines 88–94) and continues; a fall-through of the loop returns the
fallback (line 99). -/
def runAttempts (b : Nat → String → AttemptOutcome) (history : List Turn)
    (userMessage : String) : Nat → Nat → GenTrace
  | _, 0 => ⟨getFallbackMessage, 0, []⟩
  | attempt, fuel + 1 =>
    let prompt := buildPrompt history userMessage
    match b attempt prompt with
    | AttemptOutcome.success text =>
      if text.length = 0 ∨ (jsTrim text).length = 0 then
        ⟨getFallbackMessage, 1, []⟩
      else
        ⟨capAt 2000 (jsTrim text), 1, []⟩
    | AttemptOutcome.failure message =>
      if isNonRetryable message then
        ⟨getFallbackMessage, 1, []⟩
      else if attempt < MAX_RETRIES - 1 then
        let delay := RETRY_DELAY_MS * 2 ^ attempt
        let rest := runAttempts b history userMessage (attempt + 1) fuel
        ⟨rest.result, rest.calls + 1, delay :: rest.sleeps⟩
      else
        let rest := runAttempts b history userMessage (attempt + 1) fuel
        ⟨rest.result, rest.calls + 1, rest.sleeps⟩

/-- gemini.ts lines 33–100: `generateReply(history, userMessage)` against
backend oracle `b`, as an observable trace. -/
def generateReply (b : Nat → String → AttemptOutcome) (history : List Turn)
    (userMessage : String) : GenTrace :=
  runAttempts b history userMessage 0 MAX_RETRIES

/-! ## Spec-side definitions (used to state refinement claims) -/

/-- The trailing `n` characters of `s`, written independently of the
source's `slice(-n)`: reverse, take `n`, reverse. -/
def tailChars (n : Nat) (s : String) : String :=
  String.mk ((s.data.reverse.take n).reverse)

/-- The spec's wording of one serialized turn: `sender = "ai"` gives role
label `Assistant`, `sender = "user"` gives `User`. -/
def turnLineSpec (t : Turn) : String :=
  if t.sender = "ai" then "Assistant" ++ ": " ++ t.text
  else "User" ++ ": " ++ t.text

/-- The spec's wording of the serialized history block: turn lines joined
by newline, oldest first, as direct recursion. -/
def historyBlockSpec : List Turn → String
  | [] => ""
  | [t] => turnLineSpec t
  | t :: rest => turnLineSpec t ++ "\n" ++ historyBlockSpec rest

/-- The separator-prefixed tail of a join: `joinTail sep [a, b] =
sep ++ a ++ sep ++ b`. -/
def joinTail (sep : String) : List String → String
  | [] => ""
  | x :: xs => sep ++ x ++ joinTail sep xs

/-- The spec's state machine: the prompt is assembled once, before the
first attempt, and that same string is passed to every attempt. -/
def runAttemptsOnce (b : Nat → String → AttemptOutcome) (prompt : String) :
    Nat → Nat → GenTrace
  | _, 0 => ⟨getFallbackMessage, 0, []⟩
  | attempt, fuel + 1 =>
    match b attempt prompt with
    | AttemptOutcome.success text =>
      if text.length = 0 ∨ (jsTrim text).length = 0 then
        ⟨getFallbackMessage, 1, []⟩
      else
        ⟨capAt 2000 (jsTrim text), 1, []⟩
    | AttemptOutcome.failure message =>
      if isNonRetryable message then
        ⟨getFallbackMessage, 1, []⟩
      else if attempt < MAX_RETRIES - 1 then
        let delay := RETRY_DELAY_MS * 2 ^ attempt
        let rest := runAttemptsOnce b prompt (attempt + 1) fuel
        ⟨rest.result, rest.calls + 1, delay :: rest.sleeps⟩
      else
        let rest := runAttemptsOnce b prompt (attempt + 1) fuel
        ⟨rest.result, rest.calls + 1, rest.sleeps⟩

/-- `generateReply` as the spec's state machine words it: prompt assembly
happens once, before `ATTEMPT(0)`. -/
def generateReplyAssembleOnce (b : Nat → String → AttemptOutcome)
    (history : List Turn) (userMessage : String) : GenTrace :=
  runAttemptsOnce b (buildPrompt history userMessage) 0 MAX_RETRIES

/-! ## Demonstration backends used by witnesses -/

/-- A backend that always fails with a transient network-style error whose
message matches none of the non-retryable markers. -/
def bNetFail : Nat → String → AttemptOutcome :=
  fun _ _ => AttemptOutcome.failure "socket hang up"

/-- A backend that always fails with an authorization error. -/
def bAuthFail : Nat → String → AttemptOutcome :=
  fun _ _ => AttemptOutcome.failure "401 Unauthorized"

/-- A backend whose every attempt hits the 30-second per-attempt timeout. -/
def bTimeout : Nat → String → AttemptOutcome :=
  fun _ _ => AttemptOutcome.failure "LLM request timeout"

/-- A backend that always succeeds with whitespace-only text. -/
def bBlank : Nat → String → AttemptOutcome :=
  fun _ _ => AttemptOutcome.success "   "

/-- A backend that always succeeds with padded non-empty text. -/
def bOk : Nat → String → AttemptOutcome :=
  fun _ _ => AttemptOutcome.success "  30-day returns.  "

/-- A well-formed two-turn conversation used by witnesses. -/
def demoHistory : List Turn := [⟨"user", "Hi"⟩, ⟨"ai", "Hello!"⟩]

/-! ## Unfolding lemmas for the retry loop -/

theorem runAttempts_zero (b : Nat → String → AttemptOutcome) (h : List Turn)
    (m : String) (attempt : Nat) :
    runAttempts b h m attempt 0 = ⟨getFallbackMessage, 0, []⟩ := rfl

theorem runAttempts_succ (b : Nat → String → AttemptOutcome) (h : List Turn)
    (m : String) (attempt fuel : Nat) :
    runAttempts b h m attempt (fuel + 1) =
      match b attempt (buildPrompt h m) with
      | AttemptOutcome.success text =>
        if text.length = 0 ∨ (jsTrim text).length = 0 then
          ⟨getFallbackMessage, 1, []⟩
        else
          ⟨capAt 2000 (jsTrim text), 1, []⟩
      | AttemptOutcome.failure message =>
        if isNonRetryable message then
          ⟨getFallbackMessage, 1, []⟩
        else if attempt < MAX_RETRIES - 1 then
          ⟨(runAttempts b h m (attempt + 1) fuel).result,
           (runAttempts b h m (attempt + 1) fuel).calls + 1,
           RETRY_DELAY_MS * 2 ^ attempt :: (runAttempts b h m (attempt + 1) fuel).sleeps⟩
        else
          ⟨(runAttempts b h m (attempt + 1) fuel).result,
           (runAttempts b h m (attempt + 1) fuel).calls + 1,
           (runAttempts b h m (attempt + 1) fuel).sleeps⟩ := rfl

theorem runAttempts_succ_success (b : Nat → String → AttemptOutcome) (h : List Turn)
    (m : String) (attempt fuel : Nat) (t : String)
    (hb : b attempt (buildPrompt h m) = AttemptOutcome.success t) :
    runAttempts b h m attempt (fuel + 1) =
      if t.length = 0 ∨ (jsTrim t).length = 0 then
        ⟨getFallbackMessage, 1, []⟩
      else
        ⟨capAt 2000 (jsTrim t), 1, []⟩ := by
  rw [runAttempts_succ, hb]

theorem runAttempts_succ_failure (b : Nat → String → AttemptOutcome) (h : List Turn)
    (m : String) (attempt fuel : Nat) (msg : String)
    (hb : b attempt (buildPrompt h m) = AttemptOutcome.failure msg) :
    runAttempts b h m attempt (fuel + 1) =
      if isNonRetryable msg then
        ⟨getFallbackMessage, 1, []⟩
      else if attempt < MAX_RETRIES - 1 then
        ⟨(runAttempts b h m (attempt + 1) fuel).result,
         (runAttempts b h m (attempt + 1) fuel).calls + 1,
         RETRY_DELAY_MS * 2 ^ attempt :: (runAttempts b h m (attempt + 1) fuel).sleeps⟩
      else
        ⟨(runAttempts b h m (attempt + 1) fuel).result,
         (runAttempts b h m (attempt + 1) fuel).calls + 1,
         (runAttempts b h m (attempt + 1) fuel).sleeps⟩ := by
  rw [runAttempts_succ, hb]

/-! ## Small string lemmas -/

theorem capAt_length (n : Nat) (s : String) : (capAt n s).length = min n s.length := by
  cases s with
  | mk data => simp [capAt]

theorem fallback_length_pos : 0 < getFallbackMessage.length := by decide

theorem fallback_length_le : getFallbackMessage.length ≤ 2000 := by decide

/-! ## Invariants of the retry loop -/

theorem runAttempts_result_inv (b : Nat → String → AttemptOutcome) (h : List Turn)
    (m : String) : ∀ fuel attempt,
    0 < (runAttempts b h m attempt fuel).result.length ∧
    (runAttempts b h m attempt fuel).result.length ≤ 2000 ∧
    ((runAttempts b h m attempt fuel).result = getFallbackMessage ∨
      ∃ i t, b i (buildPrompt h m) = AttemptOutcome.success t ∧
        0 < (jsTrim t).length ∧
        (runAttempts b h m attempt fuel).result = capAt 2000 (jsTrim t)) := by
  intro fuel
  induction fuel with
  | zero =>
    intro attempt
    exact ⟨fallback_length_pos, fallback_length_le, Or.inl rfl⟩
  | succ fuel ih =>
    intro attempt
    rcases hb : b attempt (buildPrompt h m) with t | msg
    · rw [runAttempts_succ_success b h m attempt fuel t hb]
      by_cases hc : t.length = 0 ∨ (jsTrim t).length = 0
      · rw [if_pos hc]
        exact ⟨fallback_length_pos, fallback_length_le, Or.inl rfl⟩
      · rw [if_neg hc]
        push_neg at hc
        have hpos : 0 < (jsTrim t).length := Nat.pos_of_ne_zero hc.2
        refine ⟨?_, ?_, Or.inr ⟨attempt, t, hb, hpos, rfl⟩⟩
        · rw [show (GenTrace.mk (capAt 2000 (jsTrim t)) 1 []).result =
            capAt 2000 (jsTrim t) from rfl, capAt_length]
          omega
        · rw [show (GenTrace.mk (capAt 2000 (jsTrim t)) 1 []).result =
            capAt 2000 (jsTrim t) from rfl, capAt_length]
          omega
    · rw [runAttempts_succ_failure b h m attempt fuel msg hb]
      by_cases hnr : isNonRetryable msg = true
      · rw [if_pos hnr]
        exact ⟨fallback_length_pos, fallback_length_le, Or.inl rfl⟩
      · rw [if_neg hnr]
        by_cases hlt : attempt < MAX_RETRIES - 1
        · rw [if_pos hlt]
          exact ih (attempt + 1)
        · rw [if_neg hlt]
          exact ih (attempt + 1)

theorem runAttempts_calls_pos (b : Nat → String → AttemptOutcome) (h : List Turn)
    (m : String) (attempt fuel : Nat) :
    1 ≤ (runAttempts b h m attempt (fuel + 1)).calls := by
  rcases hb : b attempt (buildPrompt h m) with t | msg
  · rw [runAttempts_succ_success b h m attempt fuel t hb]
    by_cases hc : t.length = 0 ∨ (jsTrim t).length = 0
    · rw [if_pos hc]
    · rw [if_neg hc]
  · rw [runAttempts_succ_failure b h m attempt fuel msg hb]
    by_cases hnr : isNonRetryable msg = true
    · rw [if_pos hnr]
    · rw [if_neg hnr]
      by_cases hlt : attempt < MAX_RETRIES - 1
      · rw [if_pos hlt]
        exact Nat.le_add_left 1 _
      · rw [if_neg hlt]
        exact Nat.le_add_left 1 _

theorem length_dropWhile_ws_le : ∀ l : List Char,
    (l.dropWhile Char.isWhitespace).length ≤ l.length := by
  intro l
  induction l with
  | nil => simp
  | cons a l ih =>
    rw [List.dropWhile_cons]
    split
    · exact Nat.le_succ_of_le ih
    · exact Nat.le_refl _

theorem jsTrim_length_le (s : String) : (jsTrim s).length ≤ s.length := by
  cases s with
  | mk d =>
    show (((d.dropWhile Char.isWhitespace).reverse.dropWhile
      Char.isWhitespace).reverse).length ≤ d.length
    rw [List.length_reverse]
    calc ((d.dropWhile Char.isWhitespace).reverse.dropWhile Char.isWhitespace).length
        ≤ (d.dropWhile Char.isWhitespace).reverse.length :=
          length_dropWhile_ws_le _
      _ = (d.dropWhile Char.isWhitespace).length := List.length_reverse _
      _ ≤ d.length := length_dropWhile_ws_le d

/-! ## Claims -/

/-- C1: for every backend behaviour, history and user message,
`generateReply` returns (it is a total function — the code never lets an
error escape to the caller) a non-empty string of at most 2000 characters,
and that string is either the single fixed fallback string or the trimmed,
2000-capped text of a successful backend response — so on every failure
path the fallback string is the value returned. -/
theorem generateReply_total_bounded_C1 (b : Nat → String → AttemptOutcome)
    (h : List Turn) (m : String) :
    0 < (generateReply b h m).result.length ∧
    (generateReply b h m).result.length ≤ 2000 ∧
    ((generateReply b h m).result = getFallbackMessage ∨
      ∃ i t, b i (buildPrompt h m) = AttemptOutcome.success t ∧
        0 < (jsTrim t).length ∧
        (generateReply b h m).result = capAt 2000 (jsTrim t)) :=
  runAttempts_result_inv b h m MAX_RETRIES 0

/-- C2: if the backend fails with a retryable error on every attempt,
exactly `MAX_RETRIES = 3` backend calls are made, the backoff sleeps are
`RETRY_DELAY_MS * 2 ^ k` for failed attempts `k = 0, 1` — that is 1000 ms
then 2000 ms — no sleep follows the final attempt, and the fallback string
is returned. -/
theorem retry_exhaustion_C2 (b : Nat → String → AttemptOutcome)
    (h : List Turn) (m : String)
    (hb : ∀ i p, ∃ msg, b i p = AttemptOutcome.failure msg ∧
      isNonRetryable msg = false) :
    generateReply b h m = ⟨getFallbackMessage, 3, [1000, 2000]⟩ := by
  obtain ⟨m0, e0, r0⟩ := hb 0 (buildPrompt h m)
  obtain ⟨m1, e1, r1⟩ := hb 1 (buildPrompt h m)
  obtain ⟨m2, e2, r2⟩ := hb 2 (buildPrompt h m)
  have s0 := runAttempts_succ_failure b h m 0 2 m0 e0
  have s1 := runAttempts_succ_failure b h m 1 1 m1 e1
  have s2 := runAttempts_succ_failure b h m 2 0 m2 e2
  rw [if_neg (by simp [r0]), if_pos (by decide : (0:Nat) < MAX_RETRIES - 1)] at s0
  rw [if_neg (by simp [r1]), if_pos (by decide : (1:Nat) < MAX_RETRIES - 1)] at s1
  rw [if_neg (by simp [r2]), if_neg (by decide : ¬((2:Nat) < MAX_RETRIES - 1))] at s2
  norm_num at s0 s1 s2
  show runAttempts b h m 0 3 = _
  rw [s0, s1, s2, runAttempts_zero b h m 3]
  simp [RETRY_DELAY_MS]

/-- C2 witness: a backend that always fails with `"socket hang up"`. -/
theorem retry_exhaustion_C2_witness :
    (∀ i p, ∃ msg, bNetFail i p = AttemptOutcome.failure msg ∧
      isNonRetryable msg = false) ∧
    generateReply bNetFail [] "hello" = ⟨getFallbackMessage, 3, [1000, 2000]⟩ :=
  ⟨fun _ _ => ⟨"socket hang up", rfl, by decide⟩,
   retry_exhaustion_C2 bNetFail [] "hello"
     (fun _ _ => ⟨"socket hang up", rfl, by decide⟩)⟩

/-- C3: a first-attempt failure whose message matches a non-retryable
marker (authentication/authorization such as `API_KEY`/`401`/`403`, or
malformed-request/validation such as `400`/`invalid`) produces exactly one
backend call, no backoff sleep, and the fallback string. -/
theorem nonretryable_single_attempt_C3 (b : Nat → String → AttemptOutcome)
    (h : List Turn) (m msg : String)
    (hb : b 0 (buildPrompt h m) = AttemptOutcome.failure msg)
    (hnr : isNonRetryable msg = true) :
    generateReply b h m = ⟨getFallbackMessage, 1, []⟩ := by
  have s0 := runAttempts_succ_failure b h m 0 2 msg hb
  rw [if_pos hnr] at s0
  show runAttempts b h m 0 (2 + 1) = _
  exact s0

/-- C3 witness: a backend that fails with `"401 Unauthorized"`. -/
theorem nonretryable_single_attempt_C3_witness :
    bAuthFail 0 (buildPrompt [] "hi") = AttemptOutcome.failure "401 Unauthorized" ∧
    isNonRetryable "401 Unauthorized" = true ∧
    generateReply bAuthFail [] "hi" = ⟨getFallbackMessage, 1, []⟩ :=
  ⟨rfl, by decide,
   nonretryable_single_attempt_C3 bAuthFail [] "hi" "401 Unauthorized" rfl (by decide)⟩

/-- C4: any first-attempt failure whose message matches none of the
non-retryable markers — the per-attempt timeout message
`"LLM request timeout"` produced when the 30-second timer fires first,
network errors, transient 5xx/rate-limit errors — is classified retryable:
since attempts remain, a second backend call is made instead of returning
immediately. -/
theorem retryable_continues_C4 (b : Nat → String → AttemptOutcome)
    (h : List Turn) (m msg : String)
    (hb : b 0 (buildPrompt h m) = AttemptOutcome.failure msg)
    (hr : isNonRetryable msg = false) :
    2 ≤ (generateReply b h m).calls ∧
    isNonRetryable "LLM request timeout" = false := by
  constructor
  · have s0 := runAttempts_succ_failure b h m 0 2 msg hb
    rw [if_neg (by simp [hr]), if_pos (by decide : (0:Nat) < MAX_RETRIES - 1)] at s0
    have hc := runAttempts_calls_pos b h m 1 1
    norm_num at hc
    show 2 ≤ (runAttempts b h m 0 3).calls
    norm_num at s0
    rw [s0]
    show 2 ≤ (runAttempts b h m 1 2).calls + 1
    omega
  · decide

/-- C4 witness: every attempt times out; the second attempt still
happens. -/
theorem retryable_continues_C4_witness :
    bTimeout 0 (buildPrompt [] "hi") = AttemptOutcome.failure "LLM request timeout" ∧
    isNonRetryable "LLM request timeout" = false ∧
    (2 ≤ (generateReply bTimeout [] "hi").calls ∧
     isNonRetryable "LLM request timeout" = false) :=
  ⟨rfl, by decide,
   retryable_continues_C4 bTimeout [] "hi" "LLM request timeout" rfl (by decide)⟩

/-- C5: if on any attempt (with loop iterations left) the backend succeeds
but the text is empty or whitespace-only after trimming, the loop returns
the fallback string from that very attempt: one backend call from that
point on, and no backoff sleep. -/
theorem empty_success_immediate_C5 (b : Nat → String → AttemptOutcome)
    (h : List Turn) (m t : String) (attempt fuel : Nat)
    (hs : b attempt (buildPrompt h m) = AttemptOutcome.success t)
    (ht : (jsTrim t).length = 0) :
    runAttempts b h m attempt (fuel + 1) = ⟨getFallbackMessage, 1, []⟩ := by
  rw [runAttempts_succ_success b h m attempt fuel t hs, if_pos (Or.inr ht)]

/-- C5 witness: a whitespace-only success on the first attempt of a full
`generateReply` run (`fuel = 2 + 1 = MAX_RETRIES`). -/
theorem empty_success_immediate_C5_witness :
    bBlank 0 (buildPrompt [] "hi") = AttemptOutcome.success "   " ∧
    (jsTrim "   ").length = 0 ∧
    runAttempts bBlank [] "hi" 0 (2 + 1) = ⟨getFallbackMessage, 1, []⟩ :=
  ⟨rfl, by decide,
   empty_success_immediate_C5 bBlank [] "hi" "   " 0 2 rfl (by decide)⟩

/-- C6: a first-attempt success whose trimmed text is non-empty makes the
call return exactly that text, trimmed and capped to its first 2000
characters, with exactly one backend call and no backoff sleep. -/
theorem first_attempt_success_C6 (b : Nat → String → AttemptOutcome)
    (h : List Turn) (m t : String)
    (hs : b 0 (buildPrompt h m) = AttemptOutcome.success t)
    (ht : 0 < (jsTrim t).length) :
    generateReply b h m = ⟨capAt 2000 (jsTrim t), 1, []⟩ := by
  have hcond : ¬(t.length = 0 ∨ (jsTrim t).length = 0) := by
    rintro (h0 | h0)
    · have := jsTrim_length_le t
      omega
    · omega
  have s0 := runAttempts_succ_success b h m 0 2 t hs
  rw [if_neg hcond] at s0
  show runAttempts b h m 0 (2 + 1) = _
  exact s0

/-- C6 witness: a padded success text on the first attempt. -/
theorem first_attempt_success_C6_witness :
    bOk 0 (buildPrompt [] "q") = AttemptOutcome.success "  30-day returns.  " ∧
    0 < (jsTrim "  30-day returns.  ").length ∧
    generateReply bOk [] "q" = ⟨capAt 2000 (jsTrim "  30-day returns.  "), 1, []⟩ :=
  ⟨rfl, by decide,
   first_attempt_success_C6 bOk [] "q" "  30-day returns.  " rfl (by decide)⟩

/-! ## Truncation: spec-side trailing-characters description (C7) -/

theorem sliceFromEnd_eq_tailChars (n : Nat) (s : String) :
    sliceFromEnd n s = tailChars n s :=
  congrArg String.mk (List.rtake_eq_reverse_take_reverse s.data n)

theorem truncateHistory_eq (s : String) :
    truncateHistory s =
      if s.length ≤ MAX_INPUT_TOKENS * 4 then s
      else tailChars (MAX_INPUT_TOKENS * 4) s := by
  have hiff : ((s.length : ℚ) / 4 ≤ (MAX_INPUT_TOKENS : ℚ)) ↔
      s.length ≤ MAX_INPUT_TOKENS * 4 := by
    rw [div_le_iff₀ (by norm_num : (0:ℚ) < 4)]
    rw [show ((MAX_INPUT_TOKENS : ℚ) * 4) = ((MAX_INPUT_TOKENS * 4 : Nat) : ℚ) by
      push_cast
      ring]
    exact_mod_cast Iff.rfl
  show (if ((s.length : ℚ) / 4 ≤ (MAX_INPUT_TOKENS : ℚ)) then s
    else sliceFromEnd (MAX_INPUT_TOKENS * 4) s) = _
  rw [if_congr hiff rfl (sliceFromEnd_eq_tailChars _ s)]

/-! ## Substring containment lemmas (C7) -/

theorem leadsWith_self_append : ∀ pat rest : List Char,
    leadsWith pat (pat ++ rest) = true := by
  intro pat
  induction pat with
  | nil => intro rest; rfl
  | cons a pr ih =>
    intro rest
    show (a == a && leadsWith pr (pr ++ rest)) = true
    rw [ih rest]
    simp

theorem hasSub_nil_pat : ∀ s : List Char, hasSub [] s = true := by
  intro s
  cases s with
  | nil => rfl
  | cons a rest => rfl

theorem hasSub_append_middle : ∀ (pre pat post : List Char),
    hasSub pat (pre ++ (pat ++ post)) = true := by
  intro pre
  induction pre with
  | nil =>
    intro pat post
    cases pat with
    | nil => exact hasSub_nil_pat post
    | cons a pr =>
      show (leadsWith (a :: pr) ((a :: pr) ++ post) || _) = true
      rw [leadsWith_self_append]
      rfl
  | cons x pre ih =>
    intro pat post
    show (leadsWith pat ((x :: pre) ++ (pat ++ post)) ||
      hasSub pat (pre ++ (pat ++ post))) = true
    rw [ih pat post]
    simp

theorem containsSubstr_sandwich (pre mid post : String) :
    containsSubstr (pre ++ mid ++ post) mid = true := by
  show hasSub mid.data (pre ++ mid ++ post).data = true
  rw [String.data_append, String.data_append, List.append_assoc]
  exact hasSub_append_middle pre.data mid.data post.data

/-- C7: the prompt sent to the backend embeds the serialized history
unchanged when it is at most `MAX_INPUT_TOKENS * 4 = 16000` characters
long, and only its trailing 16000 characters when it is longer; and the
full `userMessage` always occurs verbatim in the prompt. -/
theorem prompt_truncation_C7 (h : List Turn) (m : String) :
    buildPrompt h m =
      SYSTEM_PROMPT ++ "\n\nConversation History:\n" ++
        (if (formatHistory h).length ≤ MAX_INPUT_TOKENS * 4 then formatHistory h
         else tailChars (MAX_INPUT_TOKENS * 4) (formatHistory h)) ++
        "\n\nUser: " ++ m ++ "\n\nAssistant:" ∧
    containsSubstr (buildPrompt h m) m = true := by
  constructor
  · show SYSTEM_PROMPT ++ "\n\nConversation History:\n" ++
      truncateHistory (formatHistory h) ++ "\n\nUser: " ++ m ++ "\n\nAssistant:" = _
    rw [truncateHistory_eq]
  · exact containsSubstr_sandwich _ m _

/-! ## Serialization: spec-side description (C8) -/

theorem strAppend_empty (s : String) : s ++ "" = s :=
  String.ext (by rw [String.data_append]; exact List.append_nil _)

theorem strAppend_assoc (a b c : String) : a ++ b ++ c = a ++ (b ++ c) :=
  String.ext (by
    rw [String.data_append, String.data_append, String.data_append,
      String.data_append]
    exact List.append_assoc _ _ _)

theorem foldl_sep_append (sep : String) : ∀ (ls : List String) (acc : String),
    List.foldl (fun a x => a ++ sep ++ x) acc ls = acc ++ joinTail sep ls := by
  intro ls
  induction ls with
  | nil =>
    intro acc
    show acc = acc ++ ""
    exact (strAppend_empty acc).symm
  | cons x xs ih =>
    intro acc
    show List.foldl (fun a x => a ++ sep ++ x) (acc ++ sep ++ x) xs = _
    rw [ih (acc ++ sep ++ x)]
    show acc ++ sep ++ x ++ joinTail sep xs = acc ++ (sep ++ x ++ joinTail sep xs)
    rw [strAppend_assoc (acc ++ sep) x (joinTail sep xs),
      strAppend_assoc acc sep (x ++ joinTail sep xs),
      strAppend_assoc sep x (joinTail sep xs)]

theorem formatHistory_eq_spec : ∀ h : List Turn,
    (∀ t ∈ h, t.sender = "user" ∨ t.sender = "ai") →
    formatHistory h = historyBlockSpec h := by
  intro h
  induction h with
  | nil => intro _; rfl
  | cons t rest ih =>
    intro hs
    have hline : turnLine t = turnLineSpec t := by
      rcases hs t (List.mem_cons_self t rest) with h1 | h1 <;>
        simp [turnLine, turnLineSpec, h1]
    rcases rest with _ | ⟨r, rs⟩
    · show arrayJoin "\n" [turnLine t] = turnLineSpec t
      exact hline
    · have hrest := ih (fun x hx => hs x (List.mem_cons_of_mem t hx))
      show ((r :: rs).map turnLine).foldl (fun a x => a ++ "\n" ++ x) (turnLine t) =
        turnLineSpec t ++ "\n" ++ historyBlockSpec (r :: rs)
      rw [foldl_sep_append]
      rw [← hrest]
      show turnLine t ++ ("\n" ++ turnLine r ++ joinTail "\n" (rs.map turnLine)) =
        turnLineSpec t ++ "\n" ++
          (rs.map turnLine).foldl (fun a x => a ++ "\n" ++ x) (turnLine r)
      rw [foldl_sep_append, hline]
      rw [strAppend_assoc (turnLineSpec t) "\n"
        (turnLine r ++ joinTail "\n" (rs.map turnLine))]
      rw [strAppend_assoc "\n" (turnLine r) (joinTail "\n" (rs.map turnLine))]

/-- C8: for histories whose senders are the declared `"user"`/`"ai"`
values, each turn is serialized as one `"<Role>: <text>"` line with
`user ↦ User` and `ai ↦ Assistant`, lines joined by newline oldest first;
and the assembled prompt is the fixed system block, then the serialized
(truncated) history block, then the new user message, then the assistant
cue, in that fixed order. -/
theorem serialization_order_C8 (h : List Turn) (m : String)
    (hs : ∀ t ∈ h, t.sender = "user" ∨ t.sender = "ai") :
    formatHistory h = historyBlockSpec h ∧
    buildPrompt h m =
      SYSTEM_PROMPT ++ "\n\nConversation History:\n" ++
        truncateHistory (formatHistory h) ++ "\n\nUser: " ++ m ++
        "\n\nAssistant:" :=
  ⟨formatHistory_eq_spec h hs, rfl⟩

/-- C8 witness: the two-turn demo conversation. -/
theorem serialization_order_C8_witness :
    (∀ t ∈ demoHistory, t.sender = "user" ∨ t.sender = "ai") ∧
    (formatHistory demoHistory = historyBlockSpec demoHistory ∧
     buildPrompt demoHistory "hey" =
       SYSTEM_PROMPT ++ "\n\nConversation History:\n" ++
         truncateHistory (formatHistory demoHistory) ++ "\n\nUser: " ++ "hey" ++
         "\n\nAssistant:") :=
  ⟨by decide, serialization_order_C8 demoHistory "hey" (by decide)⟩

/-- C9: `generateReply` is a pure function of the backend's input/output
behaviour and the `(history, userMessage)` pair: runs against
extensionally equal backends produce identical result strings, call
counts and backoff sequences — the core introduces no nondeterminism of
its own. -/
theorem deterministic_C9 (b1 b2 : Nat → String → AttemptOutcome)
    (h : List Turn) (m : String) (hb : ∀ i p, b1 i p = b2 i p) :
    generateReply b1 h m = generateReply b2 h m := by
  have hfun : b1 = b2 := funext fun i => funext fun p => hb i p
  rw [hfun]

/-- C9 witness: two identical runs of a pure backend. -/
theorem deterministic_C9_witness :
    (∀ i p, bOk i p = bOk i p) ∧
    generateReply bOk [] "hi" = generateReply bOk [] "hi" :=
  ⟨fun _ _ => rfl, deterministic_C9 bOk bOk [] "hi" (fun _ _ => rfl)⟩

/-! ## Assemble-once refinement (C10) -/

theorem runAttemptsOnce_succ (b : Nat → String → AttemptOutcome)
    (prompt : String) (attempt fuel : Nat) :
    runAttemptsOnce b prompt attempt (fuel + 1) =
      match b attempt prompt with
      | AttemptOutcome.success text =>
        if text.length = 0 ∨ (jsTrim text).length = 0 then
          ⟨getFallbackMessage, 1, []⟩
        else
          ⟨capAt 2000 (jsTrim text), 1, []⟩
      | AttemptOutcome.failure message =>
        if isNonRetryable message then
          ⟨getFallbackMessage, 1, []⟩
        else if attempt < MAX_RETRIES - 1 then
          ⟨(runAttemptsOnce b prompt (attempt + 1) fuel).result,
           (runAttemptsOnce b prompt (attempt + 1) fuel).calls + 1,
           RETRY_DELAY_MS * 2 ^ attempt ::
             (runAttemptsOnce b prompt (attempt + 1) fuel).sleeps⟩
        else
          ⟨(runAttemptsOnce b prompt (attempt + 1) fuel).result,
           (runAttemptsOnce b prompt (attempt + 1) fuel).calls + 1,
           (runAttemptsOnce b prompt (attempt + 1) fuel).sleeps⟩ := rfl

theorem runAttemptsOnce_succ_success (b : Nat → String → AttemptOutcome)
    (prompt : String) (attempt fuel : Nat) (t : String)
    (hb : b attempt prompt = AttemptOutcome.success t) :
    runAttemptsOnce b prompt attempt (fuel + 1) =
      if t.length = 0 ∨ (jsTrim t).length = 0 then
        ⟨getFallbackMessage, 1, []⟩
      else
        ⟨capAt 2000 (jsTrim t), 1, []⟩ := by
  rw [runAttemptsOnce_succ, hb]

theorem runAttemptsOnce_succ_failure (b : Nat → String → AttemptOutcome)
    (prompt : String) (attempt fuel : Nat) (msg : String)
    (hb : b attempt prompt = AttemptOutcome.failure msg) :
    runAttemptsOnce b prompt attempt (fuel + 1) =
      if isNonRetryable msg then
        ⟨getFallbackMessage, 1, []⟩
      else if attempt < MAX_RETRIES - 1 then
        ⟨(runAttemptsOnce b prompt (attempt + 1) fuel).result,
         (runAttemptsOnce b prompt (attempt + 1) fuel).calls + 1,
         RETRY_DELAY_MS * 2 ^ attempt ::
           (runAttemptsOnce b prompt (attempt + 1) fuel).sleeps⟩
      else
        ⟨(runAttemptsOnce b prompt (attempt + 1) fuel).result,
         (runAttemptsOnce b prompt (attempt + 1) fuel).calls + 1,
         (runAttemptsOnce b prompt (attempt + 1) fuel).sleeps⟩ := by
  rw [runAttemptsOnce_succ, hb]

theorem runAttempts_eq_once (b : Nat → String → AttemptOutcome)
    (h : List Turn) (m : String) : ∀ fuel attempt,
    runAttempts b h m attempt fuel =
      runAttemptsOnce b (buildPrompt h m) attempt fuel := by
  intro fuel
  induction fuel with
  | zero => intro attempt; rfl
  | succ fuel ih =>
    intro attempt
    rcases hb : b attempt (buildPrompt h m) with t | msg
    · rw [runAttempts_succ_success b h m attempt fuel t hb,
        runAttemptsOnce_succ_success b (buildPrompt h m) attempt fuel t hb]
    · rw [runAttempts_succ_failure b h m attempt fuel msg hb,
        runAttemptsOnce_succ_failure b (buildPrompt h m) attempt fuel msg hb]
      by_cases hnr : isNonRetryable msg = true
      · rw [if_pos hnr, if_pos hnr]
      · rw [if_neg hnr, if_neg hnr]
        by_cases hlt : attempt < MAX_RETRIES - 1
        · rw [if_pos hlt, if_pos hlt, ih (attempt + 1)]
        · rw [if_neg hlt, if_neg hlt, ih (attempt + 1)]

/-- C10: within one call the prompt is reassembled from the unchanged
inputs at the start of every attempt, and because assembly is pure, every
attempt sends the identical prompt string: the code is observably equal to
the spec's machine that assembles the prompt once before the first
attempt. -/
theorem prompt_reassembly_equiv_C10 (b : Nat → String → AttemptOutcome)
    (h : List Turn) (m : String) :
    generateReply b h m = generateReplyAssembleOnce b h m :=
  runAttempts_eq_once b h m MAX_RETRIES 0
